import Mathlib

/-! Verification model of the coco firmware core: the capture, durable-queue and
upload pipeline and the power arbiter, embedded from the C++ sources
(firmware/src/FileSystem.cpp, BackendClient.cpp, AudioManager.cpp,
Application.cpp, WifiManager.cpp, main.cpp).

File contents are modelled as `List Char`; a stored file is `Option (List Char)`
(`none` means the file is absent).  Machine integers are modelled as `Nat`/`Int`
(every quantity involved stays far below 2^32, and each site where that matters
is noted), battery voltages as `ℚ`.  The storage layer of the model always
grants the SD mutex: every C++ mutex-timeout branch returns failure without
touching any content, and no claim under scrutiny is about those branches. -/

namespace FileSystem

/-- Content of a file as seen by FileSystem::readFile (FileSystem.cpp:227-254):
an absent file and an empty file both read back as the empty string. -/
def readFile (f : Option (List Char)) : List Char := f.getD []

/-- The indexOf-newline plus substring step of FileSystem::getNextUploadFile
(FileSystem.cpp:344-350): the characters before the first newline, or the whole
content when there is no newline at all. -/
def firstLineOf : List Char → List Char
  | [] => []
  | ch :: rest => if ch = '\n' then [] else ch :: firstLineOf rest

/-- The indexOf-newline plus two-substring split used by
FileSystem::removeFirstFromUploadQueue (FileSystem.cpp:361-371): `none` when
the content has no newline (indexOf returned -1), otherwise the part before
the first newline and the part strictly after it. -/
def splitAtNl : List Char → Option (List Char × List Char)
  | [] => none
  | ch :: rest =>
    if ch = '\n' then some ([], rest)
    else
      match splitAtNl rest with
      | none => none
      | some (pre, post) => some (ch :: pre, post)

/-- FileSystem::addToUploadQueue (FileSystem.cpp:327-336): rejects an empty
filename, otherwise appends filename + newline to the queue file via
addToFile in FILE_APPEND mode (FileSystem.cpp:147-187), creating the file
when absent. -/
def addToUploadQueue (filename : List Char) (f : Option (List Char)) :
    Bool × Option (List Char) :=
  if filename.length = 0 then (false, f)
  else (true, some (readFile f ++ filename ++ ['\n']))

/-- FileSystem::getNextUploadFile (FileSystem.cpp:338-351). -/
def getNextUploadFile (f : Option (List Char)) : List Char :=
  let content := readFile f
  if content.isEmpty then [] else firstLineOf content

/-- FileSystem::removeFirstFromUploadQueue (FileSystem.cpp:353-381): error on an
empty queue; when the content has no newline (single entry) the queue file is
deleted (FileSystem.cpp:364); otherwise the queue file is overwritten in place
with everything after the first newline via overwriteFile
(FileSystem.cpp:189-225), which opens the original path in the truncating
FILE_WRITE mode.  No temporary file is involved. -/
def removeFirstFromUploadQueue (f : Option (List Char)) :
    Bool × Option (List Char) :=
  let content := readFile f
  if content.isEmpty then (false, f)
  else
    match splitAtNl content with
    | none => (true, none)
    | some (_, remaining) => (true, some remaining)

/-- FileSystem::isUploadQueueEmpty (FileSystem.cpp:383-386). -/
def isUploadQueueEmpty (f : Option (List Char)) : Bool :=
  (readFile f).isEmpty

/-- Durable on-storage states of FileSystem::removeFirstFromUploadQueue starting
from queue content `old`.  The rewrite goes through overwriteFile
(FileSystem.cpp:189-225), which opens UPLOAD_QUEUE_FILE itself with the
truncating FILE_WRITE mode and then prints the remaining content, so a crash
can leave: the untouched old content (before the open), the empty file (right
after the truncating open), any partial write (a `take k` of the remaining
content), or the completed new content.  In the no-newline single-entry case
the operation is deleteFile, leaving either the old content or no file. -/
def removeFirstCrashStates (old : List Char) : List (Option (List Char)) :=
  if old.isEmpty then [some old]
  else
    match splitAtNl old with
    | none => [some old, none]
    | some (_, remaining) =>
      some old ::
        (List.range (remaining.length + 1)).map fun k => some (remaining.take k)

theorem isEmpty_append_cons (a : List Char) (x : Char) (r : List Char) :
    (a ++ x :: r).isEmpty = false := by
  cases a <;> rfl

theorem firstLineOf_append_nl (a r : List Char) (ha : '\n' ∉ a) :
    firstLineOf (a ++ '\n' :: r) = a := by
  induction a with
  | nil => simp [firstLineOf]
  | cons x xs ih =>
    simp only [List.mem_cons, not_or] at ha
    have hx : ¬x = '\n' := fun h => ha.1 h.symm
    simp [firstLineOf, hx, ih ha.2]

theorem splitAtNl_append_nl (a r : List Char) (ha : '\n' ∉ a) :
    splitAtNl (a ++ '\n' :: r) = some (a, r) := by
  induction a with
  | nil => simp [splitAtNl]
  | cons x xs ih =>
    simp only [List.mem_cons, not_or] at ha
    have hx : ¬x = '\n' := fun h => ha.1 h.symm
    simp [splitAtNl, hx, ih ha.2]

end FileSystem

/-- Claim C1: durable upload queue FIFO preservation.  For every three distinct
nonempty newline-free paths a, b, c: after addToUploadQueue a, b, c on an
initially empty queue file, getNextUploadFile returns a; after one
removeFirstFromUploadQueue it returns b; after another it returns c; and after
the third removal the queue is empty.  Every enqueue and dequeue reports
success. -/
theorem uploadQueue_fifo (a b c : List Char)
    (ha : a ≠ []) (hb : b ≠ []) (hc : c ≠ [])
    (hna : '\n' ∉ a) (hnb : '\n' ∉ b) (hnc : '\n' ∉ c)
    (hab : a ≠ b) (hbc : b ≠ c) (hac : a ≠ c) :
    ∃ q1 q2 q3 q4 q5 q6,
      FileSystem.addToUploadQueue a (some []) = (true, q1) ∧
      FileSystem.addToUploadQueue b q1 = (true, q2) ∧
      FileSystem.addToUploadQueue c q2 = (true, q3) ∧
      FileSystem.getNextUploadFile q3 = a ∧
      FileSystem.removeFirstFromUploadQueue q3 = (true, q4) ∧
      FileSystem.getNextUploadFile q4 = b ∧
      FileSystem.removeFirstFromUploadQueue q4 = (true, q5) ∧
      FileSystem.getNextUploadFile q5 = c ∧
      FileSystem.removeFirstFromUploadQueue q5 = (true, q6) ∧
      FileSystem.isUploadQueueEmpty q6 = true := by
  refine ⟨some (a ++ '\n' :: []),
          some (a ++ '\n' :: (b ++ '\n' :: [])),
          some (a ++ '\n' :: (b ++ '\n' :: (c ++ '\n' :: []))),
          some (b ++ '\n' :: (c ++ '\n' :: [])),
          some (c ++ '\n' :: []),
          some [], ?_, ?_, ?_, ?_, ?_, ?_, ?_, ?_, ?_, ?_⟩
  · simp [FileSystem.addToUploadQueue, FileSystem.readFile,
      List.length_eq_zero, ha]
  · simp [FileSystem.addToUploadQueue, FileSystem.readFile,
      List.length_eq_zero, hb, List.append_assoc]
  · simp [FileSystem.addToUploadQueue, FileSystem.readFile,
      List.length_eq_zero, hc, List.append_assoc]
  · simp [FileSystem.getNextUploadFile, FileSystem.readFile,
      FileSystem.isEmpty_append_cons, FileSystem.firstLineOf_append_nl _ _ hna]
  · simp [FileSystem.removeFirstFromUploadQueue, FileSystem.readFile,
      FileSystem.isEmpty_append_cons, FileSystem.splitAtNl_append_nl _ _ hna]
  · simp [FileSystem.getNextUploadFile, FileSystem.readFile,
      FileSystem.isEmpty_append_cons, FileSystem.firstLineOf_append_nl _ _ hnb]
  · simp [FileSystem.removeFirstFromUploadQueue, FileSystem.readFile,
      FileSystem.isEmpty_append_cons, FileSystem.splitAtNl_append_nl _ _ hnb]
  · simp [FileSystem.getNextUploadFile, FileSystem.readFile,
      FileSystem.isEmpty_append_cons, FileSystem.firstLineOf_append_nl _ _ hnc]
  · simp [FileSystem.removeFirstFromUploadQueue, FileSystem.readFile,
      FileSystem.isEmpty_append_cons, FileSystem.splitAtNl_append_nl _ _ hnc]
  · rfl

/-- Concrete check of uploadQueue_fifo on the paths x, y, z. -/
theorem uploadQueue_fifo_check :
    ∃ q1 q2 q3 q4 q5 q6,
      FileSystem.addToUploadQueue ("x".toList) (some []) = (true, q1) ∧
      FileSystem.addToUploadQueue ("y".toList) q1 = (true, q2) ∧
      FileSystem.addToUploadQueue ("z".toList) q2 = (true, q3) ∧
      FileSystem.getNextUploadFile q3 = "x".toList ∧
      FileSystem.removeFirstFromUploadQueue q3 = (true, q4) ∧
      FileSystem.getNextUploadFile q4 = "y".toList ∧
      FileSystem.removeFirstFromUploadQueue q4 = (true, q5) ∧
      FileSystem.getNextUploadFile q5 = "z".toList ∧
      FileSystem.removeFirstFromUploadQueue q5 = (true, q6) ∧
      FileSystem.isUploadQueueEmpty q6 = true :=
  uploadQueue_fifo "x".toList "y".toList "z".toList
    (by decide) (by decide) (by decide) (by decide) (by decide) (by decide)
    (by decide) (by decide) (by decide)

/-- Claim C2 counterexample: the claim says dequeueHead writes the remaining
lines to a temporary file and atomically replaces the original, so that a crash
mid-removal leaves either the old or the new contents.  On the queue a, b the
in-place rewrite of FileSystem.cpp:353-381 passes through the durable state of
an empty queue file (right after the truncating FILE_WRITE open), which is
neither the old contents (a and b) nor the new contents (b alone): a crash
there loses b as well, more than the single in-flight removal. -/
theorem removeFirst_inPlace_counterexample :
    some [] ∈ FileSystem.removeFirstCrashStates ("a\nb\n".toList) ∧
    some [] ≠ some ("a\nb\n".toList) ∧
    (FileSystem.removeFirstFromUploadQueue (some ("a\nb\n".toList))).2 =
      some ("b\n".toList) ∧
    some [] ≠ some ("b\n".toList) := by
  decide

/-- Claim C2 as amended: removeFirstFromUploadQueue removes the first line by
reading the whole file and overwriting the original in place through a
truncating open (deleting the file outright when the content has no newline),
so a crash during removal leaves the old content, no file, or some initial
segment (take k) of the new content, including the empty file, and can
therefore lose queued entries beyond the in-flight removal. -/
theorem removeFirst_crash_characterization (old : List Char)
    (s : Option (List Char)) (hs : s ∈ FileSystem.removeFirstCrashStates old) :
    s = some old ∨ s = none ∨
      ∃ k, s = some ((FileSystem.readFile
        (FileSystem.removeFirstFromUploadQueue (some old)).2).take k) := by
  unfold FileSystem.removeFirstCrashStates at hs
  by_cases h : old.isEmpty
  · simp [h] at hs
    exact Or.inl hs
  · simp only [h, if_false] at hs
    cases hsp : FileSystem.splitAtNl old with
    | none =>
      rw [hsp] at hs
      simp at hs
      rcases hs with hs | hs
      · exact Or.inl hs
      · exact Or.inr (Or.inl hs)
    | some pr =>
      obtain ⟨p1, p2⟩ := pr
      rw [hsp] at hs
      rcases List.mem_cons.mp hs with h1 | h2
      · exact Or.inl h1
      · obtain ⟨k, hk, hks⟩ := List.mem_map.mp h2
        refine Or.inr (Or.inr ⟨k, ?_⟩)
        have hres : (FileSystem.removeFirstFromUploadQueue (some old)).2 = some p2 := by
          simp [FileSystem.removeFirstFromUploadQueue, FileSystem.readFile, h, hsp]
        rw [hres]
        exact hks.symm

/-- Concrete check of removeFirst_crash_characterization: the partially written
state b (one character of the new content) on the queue a, b. -/
theorem removeFirst_crash_characterization_check :
    some ("b".toList) = some ("a\nb\n".toList) ∨
    some ("b".toList) = (none : Option (List Char)) ∨
      ∃ k, some ("b".toList) = some ((FileSystem.readFile
        (FileSystem.removeFirstFromUploadQueue (some ("a\nb\n".toList))).2).take k) :=
  removeFirst_crash_characterization ("a\nb\n".toList) (some ("b".toList))
    (by decide)

/-- MIN_SCAN_INTERVAL (config.h:63, main.cpp:49), milliseconds. -/
def MIN_SCAN_INTERVAL : Nat := 5000

/-- MAX_SCAN_INTERVAL (config.h:64, main.cpp:50), milliseconds. -/
def MAX_SCAN_INTERVAL : Nat := 600000

/-- BATTERY_UPLOAD_THRESHOLD (config.h:77), volts. -/
def BATTERY_UPLOAD_THRESHOLD : ℚ := 3

/-- BATTERY_RECORDING_THRESHOLD (config.h:78), volts. -/
def BATTERY_RECORDING_THRESHOLD : ℚ := 3

/-- The shared cross-task state of the firmware: the Application singleton
fields (Application.cpp:36-53), the static state of BackendClient
(BackendClient.cpp:16-25), the AudioManager recording flags and queue
(AudioManager.cpp:12-18), the upload-queue file and the set of stored
recordings on the SD card, and the main.cpp wake/sleep flags
(main.cpp:98-107).  Task handles are modelled by their task-alive Booleans,
the upload mutex by a held Boolean. -/
structure SystemState where
  recordingRequested : Bool
  wifiConnected : Bool
  backendReachable : Bool
  wavFilesAvailable : Bool
  uploadInProgress : Bool
  wasRecording : Bool
  audioQueueLen : Nat
  batteryVoltage : ℚ
  queueFile : Option (List Char)
  storedFiles : List (List Char)
  consecutiveUploadFailures : Nat
  shouldRestartReachabilityTask : Bool
  nextBackendCheckTime : Nat
  currentBackendInterval : Nat
  uploadTaskRunning : Bool
  reachabilityTaskRunning : Bool
  uploadMutexHeld : Bool
  readyForDeepSleep : Bool
  externalWakeTriggered : Bool
  externalWakeValid : Int
  deriving Repr, DecidableEq

namespace AudioManager

/-- AudioManager::isBatteryOkForRecording (AudioManager.cpp:145-157). -/
def isBatteryOkForRecording (st : SystemState) : Bool :=
  decide (st.batteryVoltage ≥ BATTERY_RECORDING_THRESHOLD)

/-- AudioManager::canRecord (AudioManager.cpp:159-175): returns
recordRequested AND batteryOk, and when recording is requested on a low
battery it additionally clears the shared recordingRequested flag
(AudioManager.cpp:171) before returning. -/
def canRecord (st : SystemState) : Bool × SystemState :=
  let recordRequested := st.recordingRequested
  let batteryOk := isBatteryOkForRecording st
  let canProceed := recordRequested && batteryOk
  if recordRequested && !batteryOk then
    (canProceed, {st with recordingRequested := false})
  else
    (canProceed, st)

/-- AudioManager::isRecordingActive (AudioManager.cpp:305-307): reads the
wasRecording flag. -/
def isRecordingActive (st : SystemState) : Bool := st.wasRecording

end AudioManager

namespace BackendClient

/-- Modelled from the spec: MAX_CONSECUTIVE_UPLOAD_FAILURES is referenced at
BackendClient.cpp:242 but its defining header is not among the provided
sources; the spec's failure-threshold scenario fixes the limit to 5. -/
def MAX_CONSECUTIVE_UPLOAD_FAILURES : Nat := 5

/-- BackendClient::isBatteryOkForUpload (BackendClient.cpp:190-202). -/
def isBatteryOkForUpload (st : SystemState) : Bool :=
  decide (st.batteryVoltage ≥ BATTERY_UPLOAD_THRESHOLD)

/-- BackendClient::canUploadFiles (BackendClient.cpp:204-216): WiFi connected
AND backend reachable AND wavFilesAvailable flag AND battery above the upload
threshold.  Note that the files condition is the wavFilesAvailable flag, not
an inspection of the durable queue. -/
def canUploadFiles (st : SystemState) : Bool :=
  st.wifiConnected && st.backendReachable && st.wavFilesAvailable &&
    isBatteryOkForUpload st

/-- Result of running a piece of task code: either control returns to the
task loop with the new shared state, or the running task was deleted
(vTaskDelete on itself) and control never returns, with the shared state as
it was at the point of deletion. -/
inductive StepResult where
  | running (st : SystemState)
  | killed (st : SystemState)
  deriving Repr, DecidableEq

/-- The shared state carried by a StepResult. -/
def StepResult.state : StepResult → SystemState
  | StepResult.running st => st
  | StepResult.killed st => st

/-- Whether the step deleted the running task. -/
def StepResult.isKilled : StepResult → Bool
  | StepResult.running _ => false
  | StepResult.killed _ => true

/-- BackendClient::incrementConsecutiveUploadFailures
(BackendClient.cpp:238-260).  Its only call sites are inside
fileUploadTaskFunction (BackendClient.cpp:310,316), which executes as the very
task whose handle is uploadTaskHandle, so the vTaskDelete(uploadTaskHandle) at
BackendClient.cpp:248 is a FreeRTOS self-delete and does not return: the
statements after it — setUploadTaskHandle(nullptr), setBackendReachable(false),
setNextBackendCheckTime(millis()) and
setCurrentBackendInterval(MIN_SCAN_INTERVAL), BackendClient.cpp:250-257 —
never execute.  `killed` records that control never returns to the caller. -/
def incrementConsecutiveUploadFailures (st : SystemState) : StepResult :=
  let st1 := {st with consecutiveUploadFailures := st.consecutiveUploadFailures + 1}
  if st1.consecutiveUploadFailures ≥ MAX_CONSECUTIVE_UPLOAD_FAILURES then
    let st2 := {st1 with shouldRestartReachabilityTask := true}
    if st2.uploadTaskRunning then
      StepResult.killed {st2 with uploadTaskRunning := false}
    else
      StepResult.running st2
  else
    StepResult.running st1

/-- Modelled from the spec: the failure-threshold escalation as sections 4.5
and 7 describe it — mark the backend unreachable, schedule an immediate
reachability probe at `now` with the interval reset to MIN, and stop the
upload task.  This is also exactly what the unreachable statements at
BackendClient.cpp:250-257 would do if the self-delete at line 248 returned. -/
def incrementFailuresSpec (now : Nat) (st : SystemState) : SystemState :=
  let st1 := {st with consecutiveUploadFailures := st.consecutiveUploadFailures + 1}
  if st1.consecutiveUploadFailures ≥ MAX_CONSECUTIVE_UPLOAD_FAILURES then
    {st1 with shouldRestartReachabilityTask := true,
              uploadTaskRunning := false,
              backendReachable := false,
              nextBackendCheckTime := now,
              currentBackendInterval := MIN_SCAN_INTERVAL}
  else st1

/-- Per-iteration environment of the upload task: the outcomes of the
try-acquire of the upload mutex (BackendClient.cpp:274), of
readFileToFixedBuffer (BackendClient.cpp:286, declared in Application.h but
implemented outside the provided sources), of the timed acquire of the HTTP
mutex (BackendClient.cpp:351), the HTTP result of client.sendRequest
(BackendClient.cpp:378; positive values are HTTP status codes, values of zero
or below are network errors), and the millis() clock. -/
structure UploadEnv where
  mutexAcquired : Bool
  readOk : Bool
  fileSize : Nat
  httpMutexAcquired : Bool
  httpResponseCode : Int
  now : Nat
  deriving Repr, DecidableEq

/-- BackendClient::uploadFileFromBuffer (BackendClient.cpp:345-402): fails
outright on an empty buffer, an HTTP-mutex timeout or a lost WiFi connection;
otherwise performs the POST.  Success is exactly HTTP 200 or 201
(BackendClient.cpp:385); on any other HTTP response or a network error the
backend is marked unreachable and an immediate recheck is scheduled
(BackendClient.cpp:387-389,396-398). -/
def uploadFileFromBuffer (size : Nat) (st : SystemState) (env : UploadEnv) :
    Bool × SystemState :=
  if size = 0 then (false, st)
  else if !env.httpMutexAcquired then (false, st)
  else if !st.wifiConnected then (false, st)
  else if env.httpResponseCode > 0 then
    if env.httpResponseCode = 200 || env.httpResponseCode = 201 then (true, st)
    else
      (false, {st with backendReachable := false, nextBackendCheckTime := env.now})
  else
    (false, {st with backendReachable := false, nextBackendCheckTime := env.now})

/-- setUploadInProgress(false) followed by xSemaphoreGive(uploadMutex)
(BackendClient.cpp:324-325). -/
def releaseUploadMutex (st : SystemState) : SystemState :=
  {st with uploadInProgress := false, uploadMutexHeld := false}

/-- The upload-attempt part of one iteration of
BackendClient::fileUploadTaskFunction (BackendClient.cpp:271-327): gate,
non-blocking mutex try-acquire, peek, read into the fixed buffer, transfer,
and the success and failure bookkeeping.  deleteFile and
removeFirstFromUploadQueue run with the SD mutex granted (their timeout
branches only fail without touching content). -/
def uploadAttempt (st : SystemState) (env : UploadEnv) : StepResult :=
  if canUploadFiles st then
    if env.mutexAcquired then
      let st1 := {st with uploadMutexHeld := true, uploadInProgress := true}
      let nextFile := FileSystem.getNextUploadFile st1.queueFile
      if 0 < nextFile.length then
        if env.readOk then
          let r := uploadFileFromBuffer env.fileSize st1 env
          if r.1 then
            let st2 := {r.2 with storedFiles := r.2.storedFiles.erase nextFile}
            let st3 := {st2 with
              queueFile := (FileSystem.removeFirstFromUploadQueue st2.queueFile).2}
            let st4 := {st3 with consecutiveUploadFailures := 0}
            StepResult.running (releaseUploadMutex st4)
          else
            match incrementConsecutiveUploadFailures r.2 with
            | StepResult.killed s => StepResult.killed s
            | StepResult.running s => StepResult.running (releaseUploadMutex s)
        else
          match incrementConsecutiveUploadFailures st1 with
          | StepResult.killed s => StepResult.killed s
          | StepResult.running s => StepResult.running (releaseUploadMutex s)
      else
        StepResult.running (releaseUploadMutex {st1 with wavFilesAvailable := false})
    else
      StepResult.running st
  else
    StepResult.running st

/-- The shouldRestartReachabilityTask check closing the loop body
(BackendClient.cpp:329-339): when the flag is set, restart the reachability
task, clear the flag and self-delete via vTaskDelete(nullptr); unreachable
when the attempt already deleted the task. -/
def restartCheck (r : StepResult) : StepResult :=
  match r with
  | StepResult.killed s => StepResult.killed s
  | StepResult.running s =>
    if s.shouldRestartReachabilityTask then
      StepResult.killed {s with reachabilityTaskRunning := true,
                                shouldRestartReachabilityTask := false}
    else
      StepResult.running s

/-- One iteration of the while(true) loop of
BackendClient::fileUploadTaskFunction (BackendClient.cpp:270-342), up to the
vTaskDelay at line 341.  The environment supplies the outcomes of the
fallible collaborator calls of that iteration. -/
def fileUploadIteration (st : SystemState) (env : UploadEnv) : StepResult :=
  restartCheck (uploadAttempt st env)

/-- Failure branch of the backend reachability backoff
(BackendClient.cpp:480-482): the interval doubles, clamped to
MAX_SCAN_INTERVAL.  Values stay at or below 2 * MAX_SCAN_INTERVAL, far below
2^32, so the C unsigned long arithmetic is exact here. -/
def backendBackoffOnFailure (currentInterval : Nat) : Nat :=
  min (currentInterval * 2) MAX_SCAN_INTERVAL

/-- Success branch of the backend reachability backoff
(BackendClient.cpp:458): the interval resets to MIN_SCAN_INTERVAL. -/
def backendBackoffOnSuccess : Nat := MIN_SCAN_INTERVAL

/-- Backend probe interval after n consecutive failures, starting from
MIN_SCAN_INTERVAL (BackendClient.cpp:22,60). -/
def backendIntervalAfterFailures : Nat → Nat
  | 0 => MIN_SCAN_INTERVAL
  | n + 1 => backendBackoffOnFailure (backendIntervalAfterFailures n)

end BackendClient

namespace WifiManager

/-- Failure branch of the WiFi scan backoff (WifiManager.cpp:147-149,
195-197, 203-205): the interval doubles, clamped to MAX_SCAN_INTERVAL. -/
def scanBackoffOnFailure (currentInterval : Nat) : Nat :=
  min (currentInterval * 2) MAX_SCAN_INTERVAL

/-- Success reset of the WiFi scan backoff (WifiManager.cpp:139,212,236,284). -/
def scanBackoffOnSuccess : Nat := MIN_SCAN_INTERVAL

/-- WiFi scan interval after n consecutive failed scans, starting from
MIN_SCAN_INTERVAL (WifiManager.cpp:16,54). -/
def scanIntervalAfterFailures : Nat → Nat
  | 0 => MIN_SCAN_INTERVAL
  | n + 1 => scanBackoffOnFailure (scanIntervalAfterFailures n)

end WifiManager

namespace Application

/-- Application::setRecordingRequested (Application.cpp:198-200): a bare field
assignment, with no other effect. -/
def setRecordingRequested (val : Bool) (st : SystemState) : SystemState :=
  {st with recordingRequested := val}

/-- Application::isSystemIdle (Application.cpp:340-370): not idle when
canRecord() or canUploadFiles() holds, when recording is active, or when the
in-memory audio queue is nonempty; idle otherwise.  AudioManager::canRecord()
can mutate recordingRequested, hence the returned pair carries the state
after the call. -/
def isSystemIdle (st : SystemState) : Bool × SystemState :=
  let r := AudioManager.canRecord st
  let st1 := r.2
  let canUp := BackendClient.canUploadFiles st1
  if r.1 || canUp then (false, st1)
  else if AudioManager.isRecordingActive st1 then (false, st1)
  else if 0 < st1.audioQueueLen then (false, st1)
  else (true, st1)

end Application

namespace MainFW

/-- buttonTimerCallback (main.cpp:195-227); buttonLow is
digitalRead(BUTTON_PIN) == LOW, i.e. the button is still pressed when the
debounce timer fires.  The trailing LED write touches hardware only. -/
def buttonTimerCallback (buttonLow : Bool) (st : SystemState) : SystemState :=
  if st.externalWakeTriggered then
    let st1 :=
      if buttonLow then
        {st with externalWakeValid := 1, recordingRequested := true}
      else
        {st with externalWakeValid := 0}
    {st1 with externalWakeTriggered := false}
  else
    if buttonLow then
      let st1 :=
        if st.recordingRequested then {st with readyForDeepSleep := true} else st
      {st1 with recordingRequested := !st1.recordingRequested}
    else
      st

end MainFW

/-- A concrete quiescent shared state, used to instantiate the theorems. -/
def baseState : SystemState :=
  { recordingRequested := false
    wifiConnected := false
    backendReachable := false
    wavFilesAvailable := false
    uploadInProgress := false
    wasRecording := false
    audioQueueLen := 0
    batteryVoltage := 4
    queueFile := some []
    storedFiles := []
    consecutiveUploadFailures := 0
    shouldRestartReachabilityTask := false
    nextBackendCheckTime := 0
    currentBackendInterval := 5000
    uploadTaskRunning := false
    reachabilityTaskRunning := false
    uploadMutexHeld := false
    readyForDeepSleep := false
    externalWakeTriggered := false
    externalWakeValid := -1 }

/-- Claim C10: the recording gate is not side-effect free.  Whenever
canRecord() is evaluated while recordingRequested is true but the battery
voltage is below BATTERY_RECORDING_THRESHOLD, it returns false and also
overwrites the shared recordingRequested flag to false
(AudioManager.cpp:168-172), cancelling the recording request; no other field
changes. -/
theorem canRecord_batteryLow_side_effect (st : SystemState)
    (hreq : st.recordingRequested = true)
    (hbat : st.batteryVoltage < BATTERY_RECORDING_THRESHOLD) :
    AudioManager.canRecord st = (false, {st with recordingRequested := false}) := by
  have hok : AudioManager.isBatteryOkForRecording st = false := by
    simp [AudioManager.isBatteryOkForRecording]
    exact hbat
  simp [AudioManager.canRecord, hreq, hok]

/-- Concrete check of canRecord_batteryLow_side_effect at 2 volts. -/
theorem canRecord_batteryLow_side_effect_check :
    AudioManager.canRecord
        {baseState with recordingRequested := true, batteryVoltage := 2} =
      (false,
        {{baseState with recordingRequested := true, batteryVoltage := 2} with
          recordingRequested := false}) :=
  canRecord_batteryLow_side_effect
    {baseState with recordingRequested := true, batteryVoltage := 2}
    (by decide) (by decide)

/-- Claim C7 counterexample: Application::setRecordingRequested(false) on a
state whose previous value was true changes only recordingRequested
(Application.cpp:198-200 is a bare assignment); it does not set
readyForDeepSleep, contradicting the claim that every such call does. -/
theorem setRecordingRequested_no_sleep_side_effect :
    ({baseState with recordingRequested := true} : SystemState).recordingRequested
        = true ∧
    ({baseState with recordingRequested := true} : SystemState).readyForDeepSleep
        = false ∧
    (Application.setRecordingRequested false
        {baseState with recordingRequested := true}).readyForDeepSleep = false ∧
    Application.setRecordingRequested false
        {baseState with recordingRequested := true} = baseState := by
  decide

/-- Claim C7 as amended: the drain-then-sleep coupling lives in the button
debounce callback, not in the setter.  When buttonTimerCallback fires in
normal operation (no pending external wake) with the button still pressed and
recordingRequested previously true, it sets readyForDeepSleep and clears
recordingRequested, leaving every other field unchanged (main.cpp:212-219);
Application::setRecordingRequested(false) on the same state changes only the
recordingRequested field. -/
theorem stop_readyForDeepSleep_in_buttonCallback (st : SystemState)
    (hwake : st.externalWakeTriggered = false)
    (hreq : st.recordingRequested = true) :
    MainFW.buttonTimerCallback true st =
      {st with readyForDeepSleep := true, recordingRequested := false} ∧
    Application.setRecordingRequested false st =
      {st with recordingRequested := false} := by
  constructor
  · simp [MainFW.buttonTimerCallback, hwake, hreq]
  · rfl

/-- Concrete check of stop_readyForDeepSleep_in_buttonCallback. -/
theorem stop_readyForDeepSleep_in_buttonCallback_check :
    MainFW.buttonTimerCallback true {baseState with recordingRequested := true} =
      {{baseState with recordingRequested := true} with
        readyForDeepSleep := true, recordingRequested := false} ∧
    Application.setRecordingRequested false
        {baseState with recordingRequested := true} =
      {{baseState with recordingRequested := true} with
        recordingRequested := false} :=
  stop_readyForDeepSleep_in_buttonCallback
    {baseState with recordingRequested := true} (by decide) (by decide)

/-- Input at which the failure threshold is reached with the upload task
running: four prior consecutive failures, the backend still marked reachable
and a stale probe schedule. -/
def thresholdState : SystemState :=
  { baseState with
    consecutiveUploadFailures := 4
    uploadTaskRunning := true
    backendReachable := true
    nextBackendCheckTime := 999999
    currentBackendInterval := 600000 }

/-- Claim C4: evaluation of the code at the failing input.  The fifth
consecutive failure reaches the threshold, and
incrementConsecutiveUploadFailures deletes the calling upload task at
BackendClient.cpp:248 (a FreeRTOS self-delete that does not return) before
any escalation statement runs: the backend stays marked reachable, the probe
schedule keeps its stale values instead of an immediate recheck at MIN
interval, and the reachability task is never restarted (the restart block at
BackendClient.cpp:330-338 belongs to the task that was just deleted).  The
spec-modelled escalation incrementFailuresSpec would instead mark the backend
unreachable and schedule an immediate probe at the current time with the
interval reset to MIN_SCAN_INTERVAL. -/
theorem failureThreshold_escalation_unreachable_code :
    (BackendClient.incrementConsecutiveUploadFailures thresholdState).isKilled
        = true ∧
    (BackendClient.incrementConsecutiveUploadFailures
        thresholdState).state.backendReachable = true ∧
    (BackendClient.incrementConsecutiveUploadFailures
        thresholdState).state.nextBackendCheckTime = 999999 ∧
    (BackendClient.incrementConsecutiveUploadFailures
        thresholdState).state.currentBackendInterval = 600000 ∧
    (BackendClient.incrementConsecutiveUploadFailures
        thresholdState).state.reachabilityTaskRunning = false ∧
    (BackendClient.incrementFailuresSpec 4242 thresholdState).backendReachable
        = false ∧
    (BackendClient.incrementFailuresSpec 4242 thresholdState).nextBackendCheckTime
        = 4242 ∧
    (BackendClient.incrementFailuresSpec 4242 thresholdState).currentBackendInterval
        = MIN_SCAN_INTERVAL := by
  decide

/-- Upload-iteration input at which the lock is leaked: all gates pass, the
queue head exists, four prior consecutive failures, and the read into the
fixed buffer fails. -/
def lockLeakState : SystemState :=
  { baseState with
    wifiConnected := true
    backendReachable := true
    wavFilesAvailable := true
    queueFile := some ("/recordings/f.wav\n".toList)
    storedFiles := ["/recordings/f.wav".toList]
    consecutiveUploadFailures := 4
    uploadTaskRunning := true }

/-- Environment for the lock-leak iteration: upload mutex acquired, read
failure. -/
def lockLeakEnv : BackendClient.UploadEnv :=
  { mutexAcquired := true
    readOk := false
    fileSize := 0
    httpMutexAcquired := true
    httpResponseCode := 500
    now := 123 }

/-- Claim C8: evaluation of the code at the failing input.  In the iteration
whose failure reaches the threshold, the upload task is deleted from inside
incrementConsecutiveUploadFailures (BackendClient.cpp:248) while it still
holds the upload-exclusivity mutex and with uploadInProgress still set: the
release at BackendClient.cpp:324-325 never runs, so the mutex is not released
before the iteration's polling delay. -/
theorem uploadLock_leak_at_threshold :
    (BackendClient.fileUploadIteration lockLeakState lockLeakEnv).isKilled
        = true ∧
    (BackendClient.fileUploadIteration
        lockLeakState lockLeakEnv).state.uploadMutexHeld = true ∧
    (BackendClient.fileUploadIteration
        lockLeakState lockLeakEnv).state.uploadInProgress = true := by
  decide

/-- Upload-iteration input with a read failure well below the threshold. -/
def readFailState : SystemState :=
  { baseState with
    wifiConnected := true
    backendReachable := true
    wavFilesAvailable := true
    queueFile := some ("/recordings/g.wav\n".toList)
    storedFiles := ["/recordings/g.wav".toList]
    nextBackendCheckTime := 7777
    uploadTaskRunning := true }

/-- Environment for the read-failure iteration. -/
def readFailEnv : BackendClient.UploadEnv :=
  { mutexAcquired := true
    readOk := false
    fileSize := 0
    httpMutexAcquired := true
    httpResponseCode := 200
    now := 555 }

/-- Claim C3 counterexample: when reading the queue head into the transfer
buffer fails, the code only increments consecutiveUploadFailures
(BackendClient.cpp:312-317); the backend is NOT marked unreachable and no
immediate reachability recheck is scheduled, contradicting the claim that any
read error also marks the backend unreachable with an immediate recheck.  The
file and its queue entry do remain. -/
theorem uploader_read_failure_keeps_backend_marked :
    (BackendClient.fileUploadIteration
        readFailState readFailEnv).state.backendReachable = true ∧
    (BackendClient.fileUploadIteration
        readFailState readFailEnv).state.nextBackendCheckTime = 7777 ∧
    (BackendClient.fileUploadIteration
        readFailState readFailEnv).state.consecutiveUploadFailures = 1 ∧
    (BackendClient.fileUploadIteration readFailState readFailEnv).state.queueFile
        = readFailState.queueFile ∧
    (BackendClient.fileUploadIteration readFailState readFailEnv).state.storedFiles
        = readFailState.storedFiles := by
  decide

/-- Claim C5 counterexample: on the quiescent state (recordingRequested false,
empty in-memory audio queue, empty durable queue, no upload in flight)
isSystemIdle returns true, but flipping uploadInProgress to true alone leaves
it true: Application::isSystemIdle never consults uploadInProgress, so the
claim that flipping any single one of the four conditions yields false is
wrong. -/
theorem isSystemIdle_ignores_uploadInProgress :
    baseState.recordingRequested = false ∧
    baseState.audioQueueLen = 0 ∧
    FileSystem.isUploadQueueEmpty baseState.queueFile = true ∧
    baseState.uploadInProgress = false ∧
    (Application.isSystemIdle baseState).1 = true ∧
    (Application.isSystemIdle {baseState with uploadInProgress := true}).1
        = true := by
  decide

set_option maxHeartbeats 2000000 in
/-- Claim C5 as amended: isSystemIdle returns true exactly when canRecord() is
false, canUploadFiles() is false, recording is not active and the in-memory
audio queue is empty; it consults neither uploadInProgress nor the durable
queue file, so changing either of those alone never changes the result.  The
pending-files condition it uses is the wavFilesAvailable flag inside
canUploadFiles, which only matters when WiFi, backend reachability and upload
battery are all present. -/
theorem isSystemIdle_characterization (st : SystemState) (b : Bool)
    (q : Option (List Char)) :
    ((Application.isSystemIdle st).1 =
      (!(AudioManager.canRecord st).1 &&
        !BackendClient.canUploadFiles (AudioManager.canRecord st).2 &&
        !st.wasRecording && decide (st.audioQueueLen = 0))) ∧
    (Application.isSystemIdle {st with uploadInProgress := b}).1 =
      (Application.isSystemIdle st).1 ∧
    (Application.isSystemIdle {st with queueFile := q}).1 =
      (Application.isSystemIdle st).1 := by
  obtain ⟨rr, wifi, back, wav, up, wasr, qlen, bat, qf, sf, cf, srr, nbt, cbi,
    utr, rtr, umh, rds, ewt, ewv⟩ := st
  refine ⟨?_, ?_, ?_⟩ <;>
  · unfold Application.isSystemIdle AudioManager.canRecord
      AudioManager.isRecordingActive BackendClient.canUploadFiles
      AudioManager.isBatteryOkForRecording BackendClient.isBatteryOkForUpload
      BATTERY_RECORDING_THRESHOLD BATTERY_UPLOAD_THRESHOLD
    cases rr <;> cases wifi <;> cases back <;> cases wav <;> cases wasr <;>
      dsimp only <;> split_ifs <;> simp_all [Nat.pos_iff_ne_zero]

/-- Closed form of the backend probe backoff: n consecutive failures from MIN
yield min (MIN * 2 ^ n) MAX. -/
theorem backendInterval_closed_form (n : Nat) :
    BackendClient.backendIntervalAfterFailures n =
      min (MIN_SCAN_INTERVAL * 2 ^ n) MAX_SCAN_INTERVAL := by
  induction n with
  | zero =>
    simp [BackendClient.backendIntervalAfterFailures, MIN_SCAN_INTERVAL,
      MAX_SCAN_INTERVAL]
  | succ n ih =>
    rw [BackendClient.backendIntervalAfterFailures, ih,
      BackendClient.backendBackoffOnFailure, pow_succ]
    unfold MIN_SCAN_INTERVAL MAX_SCAN_INTERVAL
    set k := 2 ^ n with hk
    have hk1 : 1 ≤ k := hk ▸ Nat.one_le_two_pow
    omega

/-- The two backoff controllers compute the same interval sequence. -/
theorem scanInterval_eq_backendInterval (n : Nat) :
    WifiManager.scanIntervalAfterFailures n =
      BackendClient.backendIntervalAfterFailures n := by
  induction n with
  | zero => rfl
  | succ n ih =>
    rw [WifiManager.scanIntervalAfterFailures,
      BackendClient.backendIntervalAfterFailures, ih]
    rfl

/-- Claim C6: backoff monotonicity and bounds for both probed resources.  For
the backend reachability probe and the WiFi scan alike: starting from
MIN_SCAN_INTERVAL, after n consecutive failures the interval equals
min (MIN * 2 ^ n) MAX; it always stays within [MIN, MAX]; and one success
resets the interval to MIN immediately. -/
theorem backoff_monotonicity :
    (∀ n, BackendClient.backendIntervalAfterFailures n =
        min (MIN_SCAN_INTERVAL * 2 ^ n) MAX_SCAN_INTERVAL) ∧
    (∀ n, MIN_SCAN_INTERVAL ≤ BackendClient.backendIntervalAfterFailures n ∧
        BackendClient.backendIntervalAfterFailures n ≤ MAX_SCAN_INTERVAL) ∧
    BackendClient.backendBackoffOnSuccess = MIN_SCAN_INTERVAL ∧
    (∀ n, WifiManager.scanIntervalAfterFailures n =
        min (MIN_SCAN_INTERVAL * 2 ^ n) MAX_SCAN_INTERVAL) ∧
    (∀ n, MIN_SCAN_INTERVAL ≤ WifiManager.scanIntervalAfterFailures n ∧
        WifiManager.scanIntervalAfterFailures n ≤ MAX_SCAN_INTERVAL) ∧
    WifiManager.scanBackoffOnSuccess = MIN_SCAN_INTERVAL := by
  have hbound : ∀ n, MIN_SCAN_INTERVAL ≤
      BackendClient.backendIntervalAfterFailures n ∧
      BackendClient.backendIntervalAfterFailures n ≤ MAX_SCAN_INTERVAL := by
    intro n
    rw [backendInterval_closed_form]
    unfold MIN_SCAN_INTERVAL MAX_SCAN_INTERVAL
    have hk1 : 1 ≤ 2 ^ n := Nat.one_le_two_pow
    set k := 2 ^ n
    omega
  refine ⟨backendInterval_closed_form, hbound, rfl, ?_, ?_, rfl⟩
  · intro n
    rw [scanInterval_eq_backendInterval]
    exact backendInterval_closed_form n
  · intro n
    rw [scanInterval_eq_backendInterval]
    exact hbound n

/-- releaseUploadMutex only clears uploadInProgress and the mutex-held flag. -/
theorem releaseUploadMutex_frame (s : SystemState) :
    (BackendClient.releaseUploadMutex s).queueFile = s.queueFile ∧
    (BackendClient.releaseUploadMutex s).storedFiles = s.storedFiles ∧
    (BackendClient.releaseUploadMutex s).backendReachable = s.backendReachable ∧
    (BackendClient.releaseUploadMutex s).nextBackendCheckTime
        = s.nextBackendCheckTime ∧
    (BackendClient.releaseUploadMutex s).consecutiveUploadFailures
        = s.consecutiveUploadFailures := by
  simp [BackendClient.releaseUploadMutex]

/-- Claim C3 as amended: with the upload gate passed, the mutex acquired and a
queue head present (and the model's storage layer granting the SD mutex), the
local file is deleted and the queue head removed exactly when the HTTP
transfer returns 200 or 201, and then the failure counter resets; on any
other HTTP response or on a network error the file and its queue entry
remain, the backend is marked unreachable with an immediate recheck scheduled
at the current time, and consecutiveUploadFailures is incremented; but on a
read failure only consecutiveUploadFailures is incremented — the file, the
queue, the backend marking and the probe schedule are all unchanged. -/
theorem uploader_postcondition (st : SystemState) (env : BackendClient.UploadEnv)
    (hgate : BackendClient.canUploadFiles st = true)
    (hmx : env.mutexAcquired = true)
    (hhead : 0 < (FileSystem.getNextUploadFile st.queueFile).length) :
    ((env.readOk = true ∧ env.fileSize ≠ 0 ∧ env.httpMutexAcquired = true ∧
        (env.httpResponseCode = 200 ∨ env.httpResponseCode = 201)) →
      ((BackendClient.fileUploadIteration st env).state.queueFile =
          (FileSystem.removeFirstFromUploadQueue st.queueFile).2 ∧
       (BackendClient.fileUploadIteration st env).state.storedFiles =
          st.storedFiles.erase (FileSystem.getNextUploadFile st.queueFile) ∧
       (BackendClient.fileUploadIteration st env).state.consecutiveUploadFailures
          = 0 ∧
       (BackendClient.fileUploadIteration st env).state.backendReachable =
          st.backendReachable)) ∧
    ((env.readOk = true ∧ env.fileSize ≠ 0 ∧ env.httpMutexAcquired = true ∧
        0 < env.httpResponseCode ∧ env.httpResponseCode ≠ 200 ∧
        env.httpResponseCode ≠ 201) →
      ((BackendClient.fileUploadIteration st env).state.queueFile
          = st.queueFile ∧
       (BackendClient.fileUploadIteration st env).state.storedFiles
          = st.storedFiles ∧
       (BackendClient.fileUploadIteration st env).state.backendReachable
          = false ∧
       (BackendClient.fileUploadIteration st env).state.nextBackendCheckTime
          = env.now ∧
       (BackendClient.fileUploadIteration st env).state.consecutiveUploadFailures
          = st.consecutiveUploadFailures + 1)) ∧
    ((env.readOk = true ∧ env.fileSize ≠ 0 ∧ env.httpMutexAcquired = true ∧
        env.httpResponseCode ≤ 0) →
      ((BackendClient.fileUploadIteration st env).state.queueFile
          = st.queueFile ∧
       (BackendClient.fileUploadIteration st env).state.storedFiles
          = st.storedFiles ∧
       (BackendClient.fileUploadIteration st env).state.backendReachable
          = false ∧
       (BackendClient.fileUploadIteration st env).state.nextBackendCheckTime
          = env.now ∧
       (BackendClient.fileUploadIteration st env).state.consecutiveUploadFailures
          = st.consecutiveUploadFailures + 1)) ∧
    ((env.readOk = false) →
      ((BackendClient.fileUploadIteration st env).state.queueFile
          = st.queueFile ∧
       (BackendClient.fileUploadIteration st env).state.storedFiles
          = st.storedFiles ∧
       (BackendClient.fileUploadIteration st env).state.backendReachable
          = st.backendReachable ∧
       (BackendClient.fileUploadIteration st env).state.nextBackendCheckTime
          = st.nextBackendCheckTime ∧
       (BackendClient.fileUploadIteration st env).state.consecutiveUploadFailures
          = st.consecutiveUploadFailures + 1)) := by
  have hw : st.wifiConnected = true := by
    have hg := hgate
    simp only [BackendClient.canUploadFiles, Bool.and_eq_true] at hg
    exact hg.1.1.1
  obtain ⟨ma, ro, fs, hm, code, now⟩ := env
  dsimp only at hmx
  subst hmx
  refine ⟨?_, ?_, ?_, ?_⟩
  · rintro ⟨hro, hfs, hhm, hcode⟩
    dsimp only at hro hfs hhm hcode
    subst hro
    subst hhm
    rcases hcode with rfl | rfl <;>
    · by_cases hsr : st.shouldRestartReachabilityTask = true <;>
        simp [BackendClient.fileUploadIteration, BackendClient.uploadAttempt,
          BackendClient.uploadFileFromBuffer, BackendClient.restartCheck,
          BackendClient.StepResult.state, BackendClient.releaseUploadMutex,
          hgate, hhead, hw, hfs, hsr]
  · rintro ⟨hro, hfs, hhm, hpos, h200, h201⟩
    dsimp only at hro hfs hhm hpos h200 h201
    subst hro
    subst hhm
    by_cases hth : BackendClient.MAX_CONSECUTIVE_UPLOAD_FAILURES ≤
        st.consecutiveUploadFailures + 1 <;>
    by_cases hrun : st.uploadTaskRunning = true <;>
    by_cases hsr : st.shouldRestartReachabilityTask = true <;>
      simp [BackendClient.fileUploadIteration, BackendClient.uploadAttempt,
        BackendClient.uploadFileFromBuffer, BackendClient.restartCheck,
        BackendClient.incrementConsecutiveUploadFailures,
        BackendClient.StepResult.state, BackendClient.releaseUploadMutex,
        hgate, hhead, hw, hfs, hpos, h200, h201, hth, hrun, hsr]
  · rintro ⟨hro, hfs, hhm, hle⟩
    dsimp only at hro hfs hhm hle
    subst hro
    subst hhm
    have hnpos : ¬(0 < code) := not_lt.mpr hle
    by_cases hth : BackendClient.MAX_CONSECUTIVE_UPLOAD_FAILURES ≤
        st.consecutiveUploadFailures + 1 <;>
    by_cases hrun : st.uploadTaskRunning = true <;>
    by_cases hsr : st.shouldRestartReachabilityTask = true <;>
      simp [BackendClient.fileUploadIteration, BackendClient.uploadAttempt,
        BackendClient.uploadFileFromBuffer, BackendClient.restartCheck,
        BackendClient.incrementConsecutiveUploadFailures,
        BackendClient.StepResult.state, BackendClient.releaseUploadMutex,
        hgate, hhead, hw, hfs, hnpos, hth, hrun, hsr]
  · intro hro
    dsimp only at hro
    subst hro
    by_cases hth : BackendClient.MAX_CONSECUTIVE_UPLOAD_FAILURES ≤
        st.consecutiveUploadFailures + 1 <;>
    by_cases hrun : st.uploadTaskRunning = true <;>
    by_cases hsr : st.shouldRestartReachabilityTask = true <;>
      simp [BackendClient.fileUploadIteration, BackendClient.uploadAttempt,
        BackendClient.restartCheck,
        BackendClient.incrementConsecutiveUploadFailures,
        BackendClient.StepResult.state, BackendClient.releaseUploadMutex,
        hgate, hhead, hth, hrun, hsr]

/-- Environment for a successful HTTP 200 upload attempt. -/
def successEnv : BackendClient.UploadEnv :=
  { mutexAcquired := true
    readOk := true
    fileSize := 10
    httpMutexAcquired := true
    httpResponseCode := 200
    now := 555 }

/-- Concrete check of uploader_postcondition: an HTTP 200 upload of a
one-entry queue removes the entry, erases the stored file and resets the
failure counter. -/
theorem uploader_postcondition_check :
    (BackendClient.fileUploadIteration readFailState successEnv).state.queueFile =
      (FileSystem.removeFirstFromUploadQueue readFailState.queueFile).2 ∧
    (BackendClient.fileUploadIteration readFailState successEnv).state.storedFiles =
      readFailState.storedFiles.erase
        (FileSystem.getNextUploadFile readFailState.queueFile) ∧
    (BackendClient.fileUploadIteration
        readFailState successEnv).state.consecutiveUploadFailures = 0 ∧
    (BackendClient.fileUploadIteration
        readFailState successEnv).state.backendReachable =
      readFailState.backendReachable :=
  (uploader_postcondition readFailState successEnv (by decide) (by decide)
      (by decide)).1 ⟨by decide, by decide, by decide, Or.inl (by decide)⟩

namespace AudioManager

/-- The chunk position marker of an AudioBuffer (main.cpp:83; the enum nested
in the AudioBuffer struct used by AudioManager.cpp:195-256). -/
inductive AudioChunkType where
  | START
  | MIDDLE
  | END
  deriving Repr, DecidableEq

/-- Per-iteration environment of AudioManager::recordAudioTask
(AudioManager.cpp:177-240): the value of the canRecord() gate
(recordingRequested AND battery sufficient), whether i2s.recordWAV returned a
non-empty buffer, and whether xQueueSend succeeded within its timeout. -/
structure RecordEnv where
  canRecordNow : Bool
  captureOk : Bool
  enqueueOk : Bool
  deriving Repr, DecidableEq

/-- One iteration of the while(true) loop of recordAudioTask
(AudioManager.cpp:182-239), acting on the wasRecording flag: returns the
chunks enqueued to the audio queue during this iteration and the new
wasRecording value.  In the recording branch wasRecording is set before the
capture (AudioManager.cpp:193-195), so START is attempted only on the first
iteration of a session; in the stop branch one END chunk is captured and
wasRecording is cleared on every path (AudioManager.cpp:216-236). -/
def recordIter (e : RecordEnv) (was : Bool) : List AudioChunkType × Bool :=
  if e.canRecordNow then
    let t := if !was then AudioChunkType.START else AudioChunkType.MIDDLE
    if e.captureOk then
      if e.enqueueOk then ([t], true) else ([], true)
    else ([], true)
  else
    if was then
      if e.captureOk then
        if e.enqueueOk then ([AudioChunkType.END], false) else ([], false)
      else ([], false)
    else ([], false)

/-- Chunks enqueued over a sequence of iterations of recordAudioTask. -/
def recordRun : List RecordEnv → Bool → List AudioChunkType
  | [], _ => []
  | e :: rest, was => (recordIter e was).1 ++ recordRun rest (recordIter e was).2

/-- An iteration environment in which capture and enqueue succeed. -/
def okIter (gate : Bool) : RecordEnv :=
  { canRecordNow := gate, captureOk := true, enqueueOk := true }

theorem recordRun_ok_true_of_true (n : Nat) :
    recordRun (List.replicate n (okIter true)) true =
      List.replicate n AudioChunkType.MIDDLE := by
  induction n with
  | zero => rfl
  | succ n ih =>
    simp [List.replicate_succ, recordRun, recordIter, okIter]
    exact ih

theorem recordRun_ok_true_of_false (n : Nat) :
    recordRun (List.replicate (n + 1) (okIter true)) false =
      AudioChunkType.START :: List.replicate n AudioChunkType.MIDDLE := by
  simp [List.replicate_succ, recordRun, recordIter, okIter]
  exact recordRun_ok_true_of_true n

theorem recordRun_ok_false_of_false (m : Nat) :
    recordRun (List.replicate m (okIter false)) false = [] := by
  induction m with
  | zero => rfl
  | succ m ih =>
    simp [List.replicate_succ, recordRun, recordIter, okIter]
    exact ih

theorem recordRun_ok_false_of_true (m : Nat) :
    recordRun (List.replicate (m + 1) (okIter false)) true =
      [AudioChunkType.END] := by
  simp [List.replicate_succ, recordRun, recordIter, okIter]
  exact recordRun_ok_false_of_false m

/-- Final wasRecording value of a run. -/
def runWas : List RecordEnv → Bool → Bool
  | [], was => was
  | e :: rest, was => runWas rest (recordIter e was).2

theorem recordRun_append (xs ys : List RecordEnv) (was : Bool) :
    recordRun (xs ++ ys) was =
      recordRun xs was ++ recordRun ys (runWas xs was) := by
  induction xs generalizing was with
  | nil => rfl
  | cons e rest ih => simp [recordRun, runWas, ih, List.append_assoc]

theorem runWas_ok_true (n : Nat) :
    runWas (List.replicate (n + 1) (okIter true)) false = true := by
  have h : ∀ k, runWas (List.replicate k (okIter true)) true = true := by
    intro k
    induction k with
    | zero => rfl
    | succ k ih =>
      simp [List.replicate_succ, runWas, recordIter, okIter]
      exact ih
  simp [List.replicate_succ, runWas, recordIter, okIter]
  exact h n

theorem runWas_ok_false (m : Nat) (was : Bool) :
    runWas (List.replicate (m + 1) (okIter false)) was = false := by
  have h : ∀ k, runWas (List.replicate k (okIter false)) false = false := by
    intro k
    induction k with
    | zero => rfl
    | succ k ih =>
      simp [List.replicate_succ, runWas, recordIter, okIter]
      exact ih
  cases was <;> simp [List.replicate_succ, runWas, recordIter, okIter] <;>
    exact h m

end AudioManager

/-- Claim C9: session bracketing.  Under successful captures and enqueues
(okIter environments) and with the gate driven true for n1 iterations, false
for m1, true for n2 and false for m2 (each block nonempty), recordAudioTask
starting with wasRecording = false enqueues exactly
START, MIDDLE^(n1-1), END, START, MIDDLE^(n2-1), END: one START at the
beginning of each true-interval, one END after each true-to-false transition,
and only MIDDLE chunks in between. -/
theorem chunk_bracketing (n1 m1 n2 m2 : Nat)
    (h1 : 0 < n1) (h2 : 0 < m1) (h3 : 0 < n2) (h4 : 0 < m2) :
    AudioManager.recordRun
      (List.replicate n1 (AudioManager.okIter true) ++
        (List.replicate m1 (AudioManager.okIter false) ++
          (List.replicate n2 (AudioManager.okIter true) ++
            List.replicate m2 (AudioManager.okIter false)))) false =
      AudioManager.AudioChunkType.START ::
        (List.replicate (n1 - 1) AudioManager.AudioChunkType.MIDDLE ++
          (AudioManager.AudioChunkType.END ::
            (AudioManager.AudioChunkType.START ::
              (List.replicate (n2 - 1) AudioManager.AudioChunkType.MIDDLE ++
                [AudioManager.AudioChunkType.END])))) := by
  obtain ⟨k1, rfl⟩ : ∃ k, n1 = k + 1 := ⟨n1 - 1, (Nat.succ_pred_eq_of_pos h1).symm⟩
  obtain ⟨j1, rfl⟩ : ∃ k, m1 = k + 1 := ⟨m1 - 1, (Nat.succ_pred_eq_of_pos h2).symm⟩
  obtain ⟨k2, rfl⟩ : ∃ k, n2 = k + 1 := ⟨n2 - 1, (Nat.succ_pred_eq_of_pos h3).symm⟩
  obtain ⟨j2, rfl⟩ : ∃ k, m2 = k + 1 := ⟨m2 - 1, (Nat.succ_pred_eq_of_pos h4).symm⟩
  rw [AudioManager.recordRun_append, AudioManager.recordRun_append,
    AudioManager.recordRun_append, AudioManager.runWas_ok_true,
    AudioManager.runWas_ok_false, AudioManager.runWas_ok_true,
    AudioManager.recordRun_ok_true_of_false, AudioManager.recordRun_ok_false_of_true,
    AudioManager.recordRun_ok_true_of_false, AudioManager.recordRun_ok_false_of_true]
  simp

/-- Concrete check of chunk_bracketing with blocks of 2, 1, 3, 2 iterations. -/
theorem chunk_bracketing_check :
    AudioManager.recordRun
      (List.replicate 2 (AudioManager.okIter true) ++
        (List.replicate 1 (AudioManager.okIter false) ++
          (List.replicate 3 (AudioManager.okIter true) ++
            List.replicate 2 (AudioManager.okIter false)))) false =
      AudioManager.AudioChunkType.START ::
        (List.replicate 1 AudioManager.AudioChunkType.MIDDLE ++
          (AudioManager.AudioChunkType.END ::
            (AudioManager.AudioChunkType.START ::
              (List.replicate 2 AudioManager.AudioChunkType.MIDDLE ++
                [AudioManager.AudioChunkType.END])))) :=
  chunk_bracketing 2 1 3 2 (by decide) (by decide) (by decide) (by decide)
